import Mathlib

/-
Verification development for the HyperCube Nano Home Assistant integration.

The embedding below translates the relevant parts of
src/custom_components/hypercube_nano/light.py and config_flow.py into Lean.
Network I/O is modelled by explicit result values (an HTTP response or an
exception), and the mutable entity object is modelled by explicit state
passing on a LightState record.  Python sequential mutation inside a
try/except block is modelled faithfully: fields assigned before the point
where an exception is raised keep their new values.
-/

namespace HyperCubeNano

/-- Translation of the EFFECT_LIST constant of light.py (lines 27 to 126),
copied verbatim: the ordered catalog of effect names. -/
def EFFECT_LIST : List String := [
    "Mode: Kaleidoscopic",
    "Mode: Calm",
    "Mode: Sound Reactive",
    "Hyper-Rainbow",
    "Supernova",
    "Entropy Engine",
    "Photonic Accelerator",
    "Grand Prismatic",
    "Orbital Loop",
    "Strange Attractor",
    "Warp Core",
    "Chromatic Precession",
    "Singularity",
    "Time Warp",
    "Gamma Ray Burst",
    "Gravitational Wave",
    "Divergence",
    "Superconductor",
    "Achromatic Shift",
    "Prismatic Pulse",
    "Dazzle Blaster",
    "Hyperbolic Manifold",
    "Core Collapse",
    "Atomic Generator",
    "Flux Capacitor",
    "Quasar",
    "Stellar Reactor",
    "Rainbow Cannon",
    "Solar Flare",
    "Cosmic Rays",
    "Ionization",
    "Fusion Core",
    "Hypernova",
    "Superluminal",
    "Superposition",
    "Chromatic Wave",
    "Pulsar",
    "Quantum Instability",
    "Dielectric Breakdown",
    "Photonic Pulse",
    "Luminous Scatter",
    "Magnetar",
    "Scintillation",
    "Breathing",
    "Continuum",
    "Dynamo",
    "Comets",
    "Synchrotron",
    "Phase Wipe",
    "Nucleus",
    "Twinkle",
    "Prismatic Alignment",
    "Stable Isotope",
    "Luminous Ether",
    "Photonic Core",
    "Equilibration",
    "Plasma Field",
    "Serenity",
    "Chromatic Flux",
    "Convergence",
    "Shimmer",
    "Celestial",
    "Zenith",
    "Ignition",
    "Pacifica",
    "Spectral Shift",
    "Solid",
    "Harmonic Accelerator",
    "Sonic Superposition",
    "Sonic Sparkle",
    "Spectrogram Alpha",
    "Resonant Precession",
    "Aural Dynamo",
    "Hypersonic",
    "Resonance Engine",
    "Rainbow Symphony",
    "Melodic Fusion",
    "Spectrogram Beta",
    "Ultrasonic Arc",
    "Rhythmic Orbital",
    "Tonal Entanglement",
    "Synesthesia",
    "Spectrogram Delta",
    "Chromatic Soundwave",
    "Harmonic Ripple",
    "Sonic Superconductor",
    "Spectrogram Gamma",
    "Dynamic Precession",
    "Light Sound Dance",
    "Beat Shift",
    "Phase Helix",
    "Symphonic Wave",
    "Sound Smash",
    "Hypersonic Orbit",
    "Achromatic Harmony",
    "Acoustic Ignition",
    "Ultra Sound",
    "Spectral Resonator"
  ]

/-- The mutable fields of HyperCubeNanoLight that the claims concern:
_state (power), _brightness, _rgb_color, _effect and _available
(light.py lines 173 to 178). -/
structure LightState where
  power : Bool
  brightness : Int
  rgb_color : List Int
  effect : Option String
  available : Bool
deriving Repr, DecidableEq

/-- The initial cached state set by the constructor of HyperCubeNanoLight
(light.py lines 173 to 178). -/
def initialState : LightState :=
  { power := false
  , brightness := 254
  , rgb_color := [255, 255, 255]
  , effect := none
  , available := true }

/-- Outcome of the HTTP POST that _send_command performs, as observed by the
code.  exn covers aiohttp.ClientError, asyncio.TimeoutError and any other
exception raised while issuing the request.  resp carries the HTTP status,
whether reading the response body text succeeds (consulted only on a
non-200 status, light.py line 224) and whether parsing the body as JSON
succeeds (consulted only on status 200, light.py line 228); a failure of
either read raises and is caught by the except clauses. -/
inductive PostResult where
  | exn
  | resp (status : Nat) (textOk : Bool) (jsonOk : Bool)
deriving Repr, DecidableEq

/-- Translation of HyperCubeNanoLight._send_command (light.py lines 212 to
240).  Returns the success boolean together with the resulting state.  On a
non-200 status the code logs and returns False from inside the try block,
so the assignment of _available to False on line 239 is skipped; that
assignment runs only after one of the except handlers. -/
def send_command (st : LightState) (r : PostResult) : Bool × LightState :=
  match r with
  | .exn => (false, { st with available := false })
  | .resp status textOk jsonOk =>
    if status ≠ 200 then
      if textOk then (false, st)
      else (false, { st with available := false })
    else
      if jsonOk then (true, st)
      else (false, { st with available := false })

/-- The JSON command object built by async_turn_on or async_turn_off: the
key "on" is always present, the others are optional; seg_fx being some i
stands for the key "seg" holding the one-element list of the object with
key "fx" bound to i. -/
structure Command where
  onVal : Bool
  bri : Option Int
  seg_fx : Option Nat
  transition : Option Int
deriving Repr, DecidableEq

/-- The recognised optional keyword arguments of async_turn_on:
ATTR_BRIGHTNESS, ATTR_EFFECT and ATTR_TRANSITION.  A field holding none
models the key being absent from kwargs. -/
structure TurnOnKwargs where
  brightness : Option Int
  effect : Option String
  transition : Option Int
deriving Repr, DecidableEq

/-- Translation of HyperCubeNanoLight.async_turn_on (light.py lines 242 to
263).  Returns the command object sent to the device together with the
resulting cached state.  The command starts as the dict with "on" true and
"bri" the current cached brightness; a requested brightness overwrites
"bri"; a requested effect adds "seg" only when the name occurs in
EFFECT_LIST, at its first index; a requested transition adds "transition".
Cached fields are updated only when _send_command returns True, and the
cached effect is then set to the requested name even when that name was
not in the catalog. -/
def async_turn_on (st : LightState) (k : TurnOnKwargs) (r : PostResult) :
    Command × LightState :=
  let cmd : Command :=
    { onVal := true
    , bri := some (match k.brightness with | some b => b | none => st.brightness)
    , seg_fx :=
        match k.effect with
        | some e => if e ∈ EFFECT_LIST then some (EFFECT_LIST.indexOf e) else none
        | none => none
    , transition := k.transition }
  let (ok, st1) := send_command st r
  if ok then
    (cmd,
      { st1 with
        power := true
      , brightness := match k.brightness with | some b => b | none => st1.brightness
      , effect := match k.effect with | some e => some e | none => st1.effect })
  else
    (cmd, st1)

/-- The recognised optional keyword argument of async_turn_off:
ATTR_TRANSITION. -/
structure TurnOffKwargs where
  transition : Option Int
deriving Repr, DecidableEq

/-- Translation of HyperCubeNanoLight.async_turn_off (light.py lines 265 to
274).  Builds the dict with "on" false plus an optional "transition", sends
it, and sets cached power to false only when _send_command returns True. -/
def async_turn_off (st : LightState) (k : TurnOffKwargs) (r : PostResult) :
    Command × LightState :=
  let cmd : Command :=
    { onVal := false, bri := none, seg_fx := none, transition := k.transition }
  let (ok, st1) := send_command st r
  if ok then (cmd, { st1 with power := false })
  else (cmd, st1)

/-- One entry of the "seg" list of a polled device response.  A field
holding none models the key being absent.  The sx, ix and pal keys appear
on the wire but are never read by light.py; they are carried here so that
scenario inputs can state them. -/
structure Segment where
  fx : Option Int
  sx : Option Int
  ix : Option Int
  pal : Option Int
  col : Option (List (List Int))
deriving Repr, DecidableEq

/-- The fields of the "state" object of a polled device response that
async_update reads.  on holding none models the key "on" (or the whole
"state" object) being absent, which raises KeyError at the very first
subscript before any cached field is assigned; bri holding none models the
key "bri" being absent, which raises KeyError after power has already been
assigned. -/
structure DevState where
  onVal : Option Bool
  bri : Option Int
  seg : Option (List Segment)
deriving Repr, DecidableEq

/-- Outcome of the HTTP GET that async_update performs: exn covers a
network or timeout fault or a JSON parse failure (nothing is read from the
response), ok carries the parsed state object. -/
inductive GetResult where
  | exn
  | ok (s : DevState)
deriving Repr, DecidableEq

/-- Python list subscription with a possibly negative index: a nonnegative
index reads from the front, a negative index i reads position length + i,
and the result is none exactly when Python raises IndexError. -/
def pyIndex (l : List String) (i : Int) : Option String :=
  if 0 ≤ i then l.get? i.toNat
  else if 0 ≤ (l.length : Int) + i then l.get? ((l.length : Int) + i).toNat
  else none

/-- Translation of the segment-handling block of async_update (light.py
lines 287 to 294), applied after power and brightness have been assigned.
Returns the updated state together with a flag recording whether the
subscript EFFECT_LIST[fx_index] raised IndexError (possible only for a
negative fx smaller than minus the catalog length, since the guard already
requires fx_index < len(EFFECT_LIST)). -/
def updateFromSeg (st : LightState) (segs : List Segment) : LightState × Bool :=
  match segs with
  | [] => (st, false)
  | segment :: _ =>
    let st1 :=
      match segment.col with
      | some (c :: _) => { st with rgb_color := c }
      | _ => st
    match segment.fx with
    | none => (st1, false)
    | some fx =>
      if fx < (EFFECT_LIST.length : Int) then
        match pyIndex EFFECT_LIST fx with
        | some name => ({ st1 with effect := some name }, false)
        | none => (st1, true)
      else (st1, false)

/-- Translation of HyperCubeNanoLight.async_update (light.py lines 276 to
300).  The whole body sits in one try/except; mutation is sequential, so a
KeyError or IndexError raised midway leaves the assignments made before it
in place, and the except handler then sets _available to False. -/
def async_update (st : LightState) (r : GetResult) : LightState :=
  match r with
  | .exn => { st with available := false }
  | .ok s =>
    match s.onVal with
    | none => { st with available := false }
    | some onv =>
      let st1 := { st with power := onv }
      match s.bri with
      | none => { st1 with available := false }
      | some briv =>
        let st2 := { st1 with brightness := briv }
        match s.seg with
        | none => { st2 with available := true }
        | some segs =>
          let (st3, raised) := updateFromSeg st2 segs
          if raised then { st3 with available := false }
          else { st3 with available := true }

/-- The user input of the config flow form: host is required, name and
port are optional with defaults DEFAULT_NAME and DEFAULT_PORT. -/
structure UserInput where
  host : String
  name : Option String
  port : Option Nat
deriving Repr, DecidableEq

/-- Outcome of the validation GET of the config flow: exn covers a timeout,
a network fault or a JSON parse failure of the body; parsed means the call
await response.json() succeeded.  The code never checks the HTTP status of
this GET. -/
inductive GetJsonResult where
  | exn
  | parsed
deriving Repr, DecidableEq

/-- Result of one pass through async_step_user: either the form is shown
again with an error map, or an entry is created carrying a title, the
unique id that was set, and the host of the persisted data. -/
inductive FlowResult where
  | form (errors : List (String × String))
  | createEntry (title : String) (uniqueId : String) (dataHost : String)
deriving Repr, DecidableEq

/-- Translation of ConfigFlow.async_step_user (config_flow.py lines 22 to
54).  With no input the empty form is shown.  With input, the GET and the
JSON parse run inside the try; on any exception the form returns with the
error key cannot_connect and no entry is created.  On success the unique
id is set to the host; _abort_if_unique_id_configured raises when that
host is already configured, and since that raise happens inside the same
try block it is caught by the blanket except and also surfaces as
cannot_connect.  Otherwise an entry is created titled by the given name or
DEFAULT_NAME. -/
def async_step_user (input : Option UserInput) (g : GetJsonResult)
    (alreadyConfigured : Bool) : FlowResult :=
  match input with
  | none => .form []
  | some ui =>
    match g with
    | .exn => .form [("base", "cannot_connect")]
    | .parsed =>
      if alreadyConfigured then .form [("base", "cannot_connect")]
      else .createEntry (match ui.name with | some n => n | none => "HyperCube Nano")
        ui.host ui.host

/-- Helper: the effect catalog has 98 entries. -/
theorem effect_list_length : EFFECT_LIST.length = 98 := by decide

set_option maxRecDepth 10000 in
/-- Helper: the effect catalog contains no duplicate name. -/
theorem effect_list_nodup : EFFECT_LIST.Nodup := by decide

set_option maxRecDepth 10000 in
/-- Helper: subscripting the catalog at the first index of a member name
returns that name. -/
theorem effect_list_roundtrip_all :
    ∀ e ∈ EFFECT_LIST, pyIndex EFFECT_LIST (EFFECT_LIST.indexOf e) = some e := by
  decide

/-- C1: the claim states that a turn_on answered with HTTP 500 leaves the
cached power unchanged and sets the availability flag to false.  At the
initial state, a POST answered with status 500 (error body read normally,
so no exception is raised) leaves power unchanged but leaves available
true: the early return on a non-200 status skips the assignment of
_available to False. -/
theorem C1_counterexample :
    ((async_turn_on initialState ⟨none, none, none⟩
        (PostResult.resp 500 true true)).2.power = initialState.power) ∧
    ((async_turn_on initialState ⟨none, none, none⟩
        (PostResult.resp 500 true true)).2.available = true) := by
  decide

/-- C1 amended: for every turn_on call answered with a non-200 status whose
error body is read without raising, the whole cached state, the
availability flag included, is left unchanged; availability becomes false
only on an exception (network fault, timeout, or a raising body read). -/
theorem C1_amended (st : LightState) (k : TurnOnKwargs) (status : Nat)
    (jsonOk : Bool) (h : status ≠ 200) :
    (async_turn_on st k (PostResult.resp status true jsonOk)).2 = st := by
  simp [async_turn_on, send_command, h]

/-- C1 amended, witness at a concrete input: status 500. -/
theorem C1_amended_witness :
    (async_turn_on initialState ⟨some 10, none, none⟩
      (PostResult.resp 500 true true)).2 = initialState :=
  C1_amended initialState ⟨some 10, none, none⟩ 500 true (by decide)

/-- C2: the claim states that a failed poll retains the entire cached
snapshot.  A poll whose response carries state.on but is missing state.bri
raises KeyError only after power has been assigned: from the initial state
(power false) the response with on true and no bri key leaves power true
even though the poll failed and the entity was marked unavailable. -/
theorem C2_counterexample :
    initialState.power = false ∧
    (async_update initialState (GetResult.ok ⟨some true, none, none⟩)).power = true ∧
    (async_update initialState (GetResult.ok ⟨some true, none, none⟩)).available = false := by
  decide

/-- C2 amended: a failed poll marks the entity unavailable, and the cached
snapshot is retained wholesale only when the failure happens before any
field is assigned: on a fetch or parse exception, or on a response whose
first subscript (the state.on key) is missing.  A failure after an
assignment, such as a missing state.bri, keeps the partial assignment. -/
theorem C2_amended (st : LightState) (s : DevState) (h : s.onVal = none) :
    async_update st GetResult.exn = { st with available := false } ∧
    async_update st (GetResult.ok s) = { st with available := false } := by
  refine ⟨rfl, ?_⟩
  simp [async_update, h]

/-- C2 amended, witness at a concrete input: the empty response object. -/
theorem C2_amended_witness :
    async_update initialState GetResult.exn = { initialState with available := false } ∧
    async_update initialState (GetResult.ok ⟨none, none, none⟩) =
      { initialState with available := false } :=
  C2_amended initialState ⟨none, none, none⟩ rfl

/-- C3: cached state never reflects a failed command.  _send_command
succeeds only when the POST was answered with HTTP 200 (and the
acknowledgement body parsed), and whenever the send fails, async_turn_on
and async_turn_off leave the cached power, brightness and effect exactly
as they were. -/
theorem C3_commands_update_only_on_200 (st : LightState) (k : TurnOnKwargs)
    (k2 : TurnOffKwargs) (r : PostResult) :
    ((send_command st r).1 = true → ∃ t, r = PostResult.resp 200 t true) ∧
    ((send_command st r).1 = false →
      (async_turn_on st k r).2.power = st.power ∧
      (async_turn_on st k r).2.brightness = st.brightness ∧
      (async_turn_on st k r).2.effect = st.effect ∧
      (async_turn_off st k2 r).2.power = st.power ∧
      (async_turn_off st k2 r).2.brightness = st.brightness ∧
      (async_turn_off st k2 r).2.effect = st.effect) := by
  constructor
  · intro h
    match r with
    | PostResult.exn => simp [send_command] at h
    | PostResult.resp status textOk jsonOk =>
      by_cases h200 : status = 200
      · subst h200
        cases jsonOk
        · simp [send_command] at h
        · exact ⟨textOk, rfl⟩
      · cases textOk <;> simp [send_command, h200] at h
  · intro h
    have hon : (async_turn_on st k r).2 = (send_command st r).2 := by
      simp [async_turn_on, h]
    have hoff : (async_turn_off st k2 r).2 = (send_command st r).2 := by
      simp [async_turn_off, h]
    have hfields : (send_command st r).2.power = st.power ∧
        (send_command st r).2.brightness = st.brightness ∧
        (send_command st r).2.effect = st.effect := by
      match r with
      | PostResult.exn => simp [send_command]
      | PostResult.resp status textOk jsonOk =>
        by_cases h200 : status = 200 <;>
          cases textOk <;> cases jsonOk <;> simp [send_command, h200]
    rw [hon, hoff]
    exact ⟨hfields.1, hfields.2.1, hfields.2.2, hfields.1, hfields.2.1, hfields.2.2⟩

/-- C3, witness at a concrete input: a POST answered with status 500 from
the initial state. -/
theorem C3_commands_update_only_on_200_witness :
    ((send_command initialState (PostResult.resp 500 true true)).1 = true →
      ∃ t, PostResult.resp 500 true true = PostResult.resp 200 t true) ∧
    ((send_command initialState (PostResult.resp 500 true true)).1 = false →
      (async_turn_on initialState ⟨some 7, some "Solid", none⟩
          (PostResult.resp 500 true true)).2.power = initialState.power ∧
      (async_turn_on initialState ⟨some 7, some "Solid", none⟩
          (PostResult.resp 500 true true)).2.brightness = initialState.brightness ∧
      (async_turn_on initialState ⟨some 7, some "Solid", none⟩
          (PostResult.resp 500 true true)).2.effect = initialState.effect ∧
      (async_turn_off initialState ⟨some 3⟩
          (PostResult.resp 500 true true)).2.power = initialState.power ∧
      (async_turn_off initialState ⟨some 3⟩
          (PostResult.resp 500 true true)).2.brightness = initialState.brightness ∧
      (async_turn_off initialState ⟨some 3⟩
          (PostResult.resp 500 true true)).2.effect = initialState.effect) :=
  C3_commands_update_only_on_200 initialState ⟨some 7, some "Solid", none⟩
    ⟨some 3⟩ (PostResult.resp 500 true true)

/-- C6: a successful poll whose response carries on true, bri 200 and one
segment with fx 5, sx 9, ix 123, pal 2 and col [[255,0,0]] leaves, from
any prior cached state, power true, brightness 200, rgb [255,0,0], effect
"Entropy Engine" (catalog entry 5) and available true. -/
theorem C6_successful_poll_scenario (st : LightState) :
    async_update st (GetResult.ok
      ⟨some true, some 200,
        some [⟨some 5, some 9, some 123, some 2, some [[255, 0, 0]]⟩]⟩) =
    { power := true
    , brightness := 200
    , rgb_color := [255, 0, 0]
    , effect := some "Entropy Engine"
    , available := true } := by
  rfl

/-- C7: a turn_off call with transition 1000 builds exactly the command
with on false and transition 1000 (no bri, no seg), and when the device
answers HTTP 200 with a parseable acknowledgement the cached power becomes
false. -/
theorem C7_turn_off_transition_scenario (st : LightState) (textOk : Bool) :
    (async_turn_off st ⟨some 1000⟩ (PostResult.resp 200 textOk true)).1 =
      { onVal := false, bri := none, seg_fx := none, transition := some 1000 } ∧
    (async_turn_off st ⟨some 1000⟩ (PostResult.resp 200 textOk true)).2.power = false := by
  exact ⟨rfl, rfl⟩

/-- C4: the claim states that an effect index equal to the catalog length
translates to the "Unknown" sentinel.  From a state whose cached effect is
"Solid", a successful poll reporting fx equal to 98 (the catalog length)
leaves the cached effect "Solid" and not "Unknown": the guard simply skips
the update, and no "Unknown" sentinel exists in the code. -/
theorem C4_counterexample :
    (async_update { initialState with effect := some "Solid" }
      (GetResult.ok ⟨some true, some 100,
        some [⟨some 98, none, none, none, none⟩]⟩)).effect = some "Solid" ∧
    (async_update { initialState with effect := some "Solid" }
      (GetResult.ok ⟨some true, some 100,
        some [⟨some 98, none, none, none, none⟩]⟩)).effect ≠ some "Unknown" := by
  decide

/-- C4 amended: for every polled device state whose first segment reports
an effect index equal to the catalog length, the cached effect retains its
previous value (no "Unknown" sentinel is involved) and the poll still
completes successfully, marking the entity available. -/
theorem C4_amended (st : LightState) (b : Bool) (bri : Int) (sg : Segment)
    (tl : List Segment) (h : sg.fx = some ((EFFECT_LIST.length : Nat) : Int)) :
    (async_update st (GetResult.ok ⟨some b, some bri, some (sg :: tl)⟩)).effect =
      st.effect ∧
    (async_update st (GetResult.ok ⟨some b, some bri, some (sg :: tl)⟩)).available =
      true := by
  rcases sg with ⟨fx, sx, ix, pal, col⟩
  simp only [Segment.fx] at h
  subst h
  rcases col with _ | ⟨_ | ⟨c, cs⟩⟩ <;>
    simp [async_update, updateFromSeg]

/-- C4 amended, witness at a concrete input: fx equal to 98 with the
cached effect "Solid". -/
theorem C4_amended_witness :
    (async_update { initialState with effect := some "Solid" }
      (GetResult.ok ⟨some true, some 100,
        some [⟨some 98, none, none, none, none⟩]⟩)).effect =
      { initialState with effect := some "Solid" }.effect ∧
    (async_update { initialState with effect := some "Solid" }
      (GetResult.ok ⟨some true, some 100,
        some [⟨some 98, none, none, none, none⟩]⟩)).available = true :=
  C4_amended { initialState with effect := some "Solid" } true 100
    ⟨some 98, none, none, none, none⟩ [] (by decide)

/-- C5: the claim states that turn_on includes the key bri only when a
brightness was requested.  A turn_on call with no requested attributes
still sends bri, holding the current cached brightness 254. -/
theorem C5_counterexample :
    ((async_turn_on initialState ⟨none, none, none⟩
        (PostResult.resp 200 true true)).1).bri = some 254 ∧
    ((async_turn_on initialState ⟨none, none, none⟩
        (PostResult.resp 200 true true)).1).bri ≠ none := by
  decide

/-- C5 amended: the turn_on command always carries on true and the key bri
(the requested brightness when given, else the current cached brightness);
it carries seg [with fx] exactly when the requested effect name occurs in
the catalog, and the index sent denotes that very name in the catalog; an
unrecognized name is silently omitted; transition is sent exactly when
requested.  The turn_off command is on false plus only the optional
transition. -/
theorem C5_amended (st : LightState) (k : TurnOnKwargs) (k2 : TurnOffKwargs)
    (r : PostResult) :
    ((async_turn_on st k r).1.onVal = true) ∧
    (k.brightness = none → (async_turn_on st k r).1.bri = some st.brightness) ∧
    (∀ b, k.brightness = some b → (async_turn_on st k r).1.bri = some b) ∧
    (∀ i, (async_turn_on st k r).1.seg_fx = some i →
      ∃ e, k.effect = some e ∧ pyIndex EFFECT_LIST (i : Int) = some e) ∧
    (∀ e, k.effect = some e → e ∉ EFFECT_LIST →
      (async_turn_on st k r).1.seg_fx = none) ∧
    (k.effect = none → (async_turn_on st k r).1.seg_fx = none) ∧
    ((async_turn_on st k r).1.transition = k.transition) ∧
    ((async_turn_off st k2 r).1 =
      { onVal := false, bri := none, seg_fx := none, transition := k2.transition }) := by
  have hcmd : (async_turn_on st k r).1 =
      { onVal := true
      , bri := some (match k.brightness with | some b => b | none => st.brightness)
      , seg_fx :=
          match k.effect with
          | some e => if e ∈ EFFECT_LIST then some (EFFECT_LIST.indexOf e) else none
          | none => none
      , transition := k.transition } := by
    simp only [async_turn_on]
    cases h : (send_command st r).1 <;> simp [h]
  have hcmd2 : (async_turn_off st k2 r).1 =
      { onVal := false, bri := none, seg_fx := none, transition := k2.transition } := by
    simp only [async_turn_off]
    cases h : (send_command st r).1 <;> simp [h]
  refine ⟨by rw [hcmd], ?_, ?_, ?_, ?_, ?_, by rw [hcmd], hcmd2⟩
  · intro hb; rw [hcmd]; simp [hb]
  · intro b hb; rw [hcmd]; simp [hb]
  · intro i hi
    rw [hcmd] at hi
    simp only at hi
    match he : k.effect with
    | none => rw [he] at hi; simp at hi
    | some e =>
      rw [he] at hi
      by_cases hmem : e ∈ EFFECT_LIST
      · simp [hmem] at hi
        refine ⟨e, rfl, ?_⟩
        rw [← hi]
        exact effect_list_roundtrip_all e hmem
      · simp [hmem] at hi
  · intro e he hmem; rw [hcmd]; simp [he, hmem]
  · intro he; rw [hcmd]; simp [he]

/-- C5 amended, witness at a concrete input: a turn_on requesting the
catalog effect "Solid" and no brightness, and a turn_off with transition
3, both answered with status 200. -/
theorem C5_amended_witness :
    ((async_turn_on initialState ⟨none, some "Solid", none⟩
        (PostResult.resp 200 true true)).1.onVal = true) ∧
    ((⟨none, some "Solid", none⟩ : TurnOnKwargs).brightness = none →
      (async_turn_on initialState ⟨none, some "Solid", none⟩
        (PostResult.resp 200 true true)).1.bri = some initialState.brightness) ∧
    (∀ b, (⟨none, some "Solid", none⟩ : TurnOnKwargs).brightness = some b →
      (async_turn_on initialState ⟨none, some "Solid", none⟩
        (PostResult.resp 200 true true)).1.bri = some b) ∧
    (∀ i, (async_turn_on initialState ⟨none, some "Solid", none⟩
        (PostResult.resp 200 true true)).1.seg_fx = some i →
      ∃ e, (⟨none, some "Solid", none⟩ : TurnOnKwargs).effect = some e ∧
        pyIndex EFFECT_LIST (i : Int) = some e) ∧
    (∀ e, (⟨none, some "Solid", none⟩ : TurnOnKwargs).effect = some e →
      e ∉ EFFECT_LIST →
      (async_turn_on initialState ⟨none, some "Solid", none⟩
        (PostResult.resp 200 true true)).1.seg_fx = none) ∧
    ((⟨none, some "Solid", none⟩ : TurnOnKwargs).effect = none →
      (async_turn_on initialState ⟨none, some "Solid", none⟩
        (PostResult.resp 200 true true)).1.seg_fx = none) ∧
    ((async_turn_on initialState ⟨none, some "Solid", none⟩
        (PostResult.resp 200 true true)).1.transition =
      (⟨none, some "Solid", none⟩ : TurnOnKwargs).transition) ∧
    ((async_turn_off initialState ⟨some 3⟩ (PostResult.resp 200 true true)).1 =
      { onVal := false, bri := none, seg_fx := none, transition := some 3 }) :=
  C5_amended initialState ⟨none, some "Solid", none⟩ ⟨some 3⟩
    (PostResult.resp 200 true true)

/-- C6, witness at a concrete input: the initial cached state. -/
theorem C6_successful_poll_scenario_witness :
    async_update initialState (GetResult.ok
      ⟨some true, some 200,
        some [⟨some 5, some 9, some 123, some 2, some [[255, 0, 0]]⟩]⟩) =
    { power := true
    , brightness := 200
    , rgb_color := [255, 0, 0]
    , effect := some "Entropy Engine"
    , available := true } :=
  C6_successful_poll_scenario initialState

/-- C7, witness at a concrete input: the initial cached state. -/
theorem C7_turn_off_transition_scenario_witness :
    (async_turn_off initialState ⟨some 1000⟩ (PostResult.resp 200 true true)).1 =
      { onVal := false, bri := none, seg_fx := none, transition := some 1000 } ∧
    (async_turn_off initialState ⟨some 1000⟩
        (PostResult.resp 200 true true)).2.power = false :=
  C7_turn_off_transition_scenario initialState true

/-- C8: when the validation GET raises (timeout, network fault or JSON
parse failure), async_step_user returns the form with the error key
cannot_connect and creates no entry; an entry is only ever created when
the GET body parsed as JSON, and the unique id it registers is the host of
the user input. -/
theorem C8_setup_validation (ui : UserInput) (cfg : Bool) :
    async_step_user (some ui) GetJsonResult.exn cfg =
      FlowResult.form [("base", "cannot_connect")] ∧
    (∀ g t uid d, async_step_user (some ui) g cfg = FlowResult.createEntry t uid d →
      g = GetJsonResult.parsed ∧ uid = ui.host) := by
  refine ⟨rfl, ?_⟩
  intro g t uid d h
  match g with
  | GetJsonResult.exn => simp [async_step_user] at h
  | GetJsonResult.parsed =>
    cases cfg
    · simp [async_step_user] at h
      exact ⟨rfl, h.2.1.symm⟩
    · simp [async_step_user] at h

/-- C8, witness at a concrete input: host "192.168.1.2" with no prior
configured entry. -/
theorem C8_setup_validation_witness :
    async_step_user (some ⟨"192.168.1.2", none, none⟩) GetJsonResult.exn false =
      FlowResult.form [("base", "cannot_connect")] ∧
    (∀ g t uid d, async_step_user (some ⟨"192.168.1.2", none, none⟩) g false =
        FlowResult.createEntry t uid d →
      g = GetJsonResult.parsed ∧
      uid = (⟨"192.168.1.2", none, none⟩ : UserInput).host) :=
  C8_setup_validation ⟨"192.168.1.2", none, none⟩ false

/-- C9: for every effect name in the catalog, resolving it to its first
index (the reverse lookup used by async_turn_on) and subscripting the
catalog at that index (the translation used by async_update) returns the
same name, and the catalog is duplicate-free, so index and name are in
bijection. -/
theorem C9_catalog_roundtrip (n : String) (h : n ∈ EFFECT_LIST) :
    pyIndex EFFECT_LIST ((EFFECT_LIST.indexOf n : Nat) : Int) = some n ∧
    EFFECT_LIST.Nodup :=
  ⟨effect_list_roundtrip_all n h, effect_list_nodup⟩

set_option maxRecDepth 2000 in
/-- C9, witness at a concrete input: the catalog name "Solid". -/
theorem C9_catalog_roundtrip_witness :
    pyIndex EFFECT_LIST ((EFFECT_LIST.indexOf "Solid" : Nat) : Int) = some "Solid" ∧
    EFFECT_LIST.Nodup :=
  C9_catalog_roundtrip "Solid" (by decide)

/-- C10: the claim states that the effect catalog has 100 entries and that
a negative effect index never faults.  The catalog has 98 entries, and a
successful fetch whose first segment reports fx equal to -99 passes the
guard but raises IndexError at the subscript: the poll fails, the cached
effect is retained and the entity is marked unavailable. -/
theorem C10_counterexample :
    EFFECT_LIST.length = 98 ∧
    async_update initialState (GetResult.ok ⟨some true, some 100,
      some [⟨some (-99), none, none, none, none⟩]⟩) =
    { power := true
    , brightness := 100
    , rgb_color := [255, 255, 255]
    , effect := none
    , available := false } := by
  decide

/-- C10 amended: for every fetched state whose first segment reports a
negative effect index fx, the guard accepts it; when fx is at least minus
the catalog length (98 entries, not 100), the cached effect becomes the
catalog entry at position length + fx and the poll succeeds (for example
fx equal to -1 yields the last entry); when fx is below minus the length,
the subscript raises IndexError, the poll fails and the entity is marked
unavailable with the cached effect retained. -/
theorem C10_amended (st : LightState) (b : Bool) (bri : Int) (fx : Int)
    (h : fx < 0) :
    ((-(EFFECT_LIST.length : Int) ≤ fx →
      (async_update st (GetResult.ok ⟨some b, some bri,
        some [⟨some fx, none, none, none, none⟩]⟩)).effect =
        EFFECT_LIST.get? ((EFFECT_LIST.length : Int) + fx).toNat ∧
      (async_update st (GetResult.ok ⟨some b, some bri,
        some [⟨some fx, none, none, none, none⟩]⟩)).available = true) ∧
    (fx < -(EFFECT_LIST.length : Int) →
      (async_update st (GetResult.ok ⟨some b, some bri,
        some [⟨some fx, none, none, none, none⟩]⟩)).effect = st.effect ∧
      (async_update st (GetResult.ok ⟨some b, some bri,
        some [⟨some fx, none, none, none, none⟩]⟩)).available = false)) := by
  have hlen : EFFECT_LIST.length = 98 := effect_list_length
  have hguard : fx < (EFFECT_LIST.length : Int) := by rw [hlen]; omega
  constructor
  · intro h2
    have hnn : 0 ≤ (EFFECT_LIST.length : Int) + fx := by omega
    have hpy : pyIndex EFFECT_LIST fx =
        EFFECT_LIST.get? ((EFFECT_LIST.length : Int) + fx).toNat := by
      unfold pyIndex
      rw [if_neg (by omega), if_pos hnn]
    have hlt : ((EFFECT_LIST.length : Int) + fx).toNat < EFFECT_LIST.length := by
      rw [hlen] at hnn ⊢
      omega
    have hget : EFFECT_LIST[((EFFECT_LIST.length : Int) + fx).toNat]? =
        some (EFFECT_LIST.get ⟨((EFFECT_LIST.length : Int) + fx).toNat, hlt⟩) := by
      rw [← List.get?_eq_getElem?]
      exact List.get?_eq_get hlt
    simp [async_update, updateFromSeg, hguard, hpy, hget]
  · intro h2
    have hpy : pyIndex EFFECT_LIST fx = none := by
      unfold pyIndex
      rw [if_neg (by omega), if_neg (by omega)]
    simp [async_update, updateFromSeg, hguard, hpy]

/-- C10 amended, witness at a concrete input: fx equal to -1, which maps
to the catalog entry at position 97. -/
theorem C10_amended_witness :
    (async_update initialState (GetResult.ok ⟨some true, some 100,
      some [⟨some (-1), none, none, none, none⟩]⟩)).effect =
      EFFECT_LIST.get? ((EFFECT_LIST.length : Int) + (-1)).toNat ∧
    (async_update initialState (GetResult.ok ⟨some true, some 100,
      some [⟨some (-1), none, none, none, none⟩]⟩)).available = true :=
  (C10_amended initialState true 100 (-1) (by decide)).1 (by decide)

end HyperCubeNano
